import Mathlib

/-!
Shallow embedding of the configuration-merge logic of `MobileModeBase`
(`mobile-mode-base.ts`) and of the stateful counter / auto-grow logic of
`TextAreaComponent` (`text-area.component.ts`) from the fundamental-ngx
repository, together with proofs of the specified properties.

JavaScript plain objects are modelled as association lists from string
keys to values; property lookup returns the first binding, and the object
spread `{...a, ...b}` is modelled by `spread`, whose lookup semantics
(`jsLookup_spread`) is exactly the JavaScript one: a key bound in `b`
takes `b`'s value, otherwise `a`'s.
-/

/-- A JavaScript value stored in a configuration object: an opaque
primitive (identified by a string) or a nested plain object. -/
inductive JsValue where
  | prim : String → JsValue
  | obj : List (String × JsValue) → JsValue

/-- A JavaScript plain object: an association list of properties,
earlier bindings shadowing later ones. -/
abbrev JsObj := List (String × JsValue)

/-- Property lookup on a plain object. -/
def jsLookup (o : JsObj) (k : String) : Option JsValue :=
  (o.find? (fun p => p.1 == k)).map Prod.snd

/-- The JavaScript object spread `{...a, ...b}`: keys of `b` win over
keys of `a`; keys present in exactly one side are kept. -/
def spread (a b : JsObj) : JsObj :=
  a.filter (fun p => (jsLookup b p.1).isNone) ++ b

theorem jsLookup_nil (k : String) : jsLookup [] k = none := rfl

theorem jsLookup_cons (p : String × JsValue) (o : JsObj) (k : String) :
    jsLookup (p :: o) k = if p.1 == k then some p.2 else jsLookup o k := by
  simp only [jsLookup, List.find?]
  by_cases h : p.1 == k
  · simp [h]
  · simp [h]

theorem jsLookup_append (a b : JsObj) (k : String) :
    jsLookup (a ++ b) k = (jsLookup a k).orElse (fun _ => jsLookup b k) := by
  induction a with
  | nil => simp [jsLookup_nil, Option.orElse]
  | cons p a ih =>
    rw [List.cons_append, jsLookup_cons, jsLookup_cons]
    by_cases h : p.1 == k
    · simp [h, Option.orElse]
    · simp [h, ih]

theorem jsLookup_filter_isNone (b : JsObj) (a : JsObj) (k : String)
    (hb : (jsLookup b k).isSome) :
    jsLookup (a.filter (fun p => (jsLookup b p.1).isNone)) k = none := by
  induction a with
  | nil => rfl
  | cons p a ih =>
    by_cases hp : (jsLookup b p.1).isNone
    · rw [List.filter_cons_of_pos (by simpa using hp), jsLookup_cons]
      by_cases hk : p.1 == k
      · exfalso
        have : p.1 = k := by simpa using hk
        rw [this] at hp
        rw [Option.isNone_iff_eq_none] at hp
        rw [hp] at hb
        simp at hb
      · simp [hk, ih]
    · rw [List.filter_cons_of_neg (by simpa using hp)]
      exact ih

/-- The lookup semantics of the object spread: `{...a, ...b}[k]` is
`b[k]` when `k` is bound in `b`, and `a[k]` otherwise. -/
theorem jsLookup_spread (a b : JsObj) (k : String) :
    jsLookup (spread a b) k = (jsLookup b k).orElse (fun _ => jsLookup a k) := by
  unfold spread
  rw [jsLookup_append]
  cases hb : jsLookup b k with
  | none =>
    simp only [Option.orElse, Option.none_orElse]
    induction a with
    | nil => simp [jsLookup_nil, hb]
    | cons p a ih =>
      by_cases hp : (jsLookup b p.1).isNone
      · rw [List.filter_cons_of_pos (by simpa using hp), jsLookup_cons, jsLookup_cons]
        by_cases hk : p.1 == k
        · simp [hk]
        · simp only [hk, Bool.false_eq_true, if_false]
          exact ih
      · rw [List.filter_cons_of_neg (by simpa using hp), jsLookup_cons]
        by_cases hk : p.1 == k
        · exfalso
          have : p.1 = k := by simpa using hk
          rw [this, hb] at hp
          simp at hp
        · simp only [hk, Bool.false_eq_true, if_false]
          exact ih
  | some v =>
    rw [jsLookup_filter_isNone b a k (by rw [hb]; rfl)]
    simp [Option.orElse]

/-! ## MobileModeBase (`mobile-mode-base.ts`) -/

/-- The `MobileModeControl` enum of `mobile-mode-base.ts`. -/
inductive MobileModeControl where
  | MENU
  | SELECT
  | COMBOBOX
  | MULTI_INPUT
deriving DecidableEq, Repr

/-- A `MobileModeConfig` object.  In the source this is an interface of
scalar properties plus one nested object property `dialogConfig`; we keep
the scalar properties generically as `fields` and the `dialogConfig`
sub-object apart, `none` standing for a missing (`undefined`)
`dialogConfig`. -/
structure MobileModeConfig where
  fields : JsObj
  dialogConfig : Option JsObj

/-- A `MobileModeConfigToken` entry of the injected list; `config : none`
models an entry whose `config` property is `undefined`
(the source guards it with `injectedConfig.config || {}`). -/
structure MobileModeConfigToken where
  target : MobileModeControl
  config : Option MobileModeConfig

/-- The empty configuration object `{}`. -/
def emptyConfig : MobileModeConfig := ⟨[], none⟩

/-- Modelled from the spec: the fixed message constant `MOBILE_CONFIG_ERROR`
imported from `../consts`, whose defining file is not among the sources;
the spec only requires it to be one fixed message. -/
def MOBILE_CONFIG_ERROR : String := "MOBILE_CONFIG_ERROR"

namespace MobileModeBase

/-- `MobileModeBase._mergeConfigs`:
`{...config1, ...config2, dialogConfig: {...(config1.dialogConfig && config1.dialogConfig), ...(config2.dialogConfig && config2.dialogConfig)}}`.
The scalar properties are spread with `config2` winning, and the
`dialogConfig` property of the result is always a defined object, the
one-level spread of the two (possibly missing) `dialogConfig` objects. -/
def _mergeConfigs (config1 config2 : MobileModeConfig) : MobileModeConfig :=
  { fields := spread config1.fields config2.fields
    dialogConfig := some (spread (config1.dialogConfig.getD [])
      (config2.dialogConfig.getD [])) }

/-- `MobileModeBase._getMobileModeConfig`, as a function of the injected
list `_mobileModes`, the component's `target` and the component's own
`mobileConfig` (`none` = `undefined`).  `find` returns the first entry
whose target matches; if some entry or the component config is present a
configuration is produced, otherwise `MOBILE_CONFIG_ERROR` is thrown. -/
def _getMobileModeConfig (mobileModes : List MobileModeConfigToken)
    (target : MobileModeControl) (componentMobileConfig : Option MobileModeConfig) :
    Except String MobileModeConfig :=
  let injectedConfig := mobileModes.find? (fun mode => mode.target == target)
  match injectedConfig, componentMobileConfig with
  | some tok, comp =>
      .ok (_mergeConfigs (tok.config.getD emptyConfig) (comp.getD emptyConfig))
  | none, some comp => .ok comp
  | none, none => .error MOBILE_CONFIG_ERROR

end MobileModeBase

/-! ## Theorems about MobileModeBase -/

/-- Concrete configurations used by witnesses. -/
def c1ex : MobileModeConfig :=
  ⟨[("a", JsValue.prim "1"), ("b", JsValue.prim "2")], none⟩

def c2ex : MobileModeConfig :=
  ⟨[("b", JsValue.prim "3"), ("c", JsValue.prim "4")], none⟩

/-- C1: mobile-mode configuration resolution throws the fixed
`MOBILE_CONFIG_ERROR` exactly when the injected list has no entry for the
component's target and the component provides no `mobileConfig`; when at
least one of the two is present, a configuration is returned and no error
is raised. -/
theorem C1_error_iff_no_config (mobileModes : List MobileModeConfigToken)
    (target : MobileModeControl) (comp : Option MobileModeConfig) :
    (MobileModeBase._getMobileModeConfig mobileModes target comp
        = .error MOBILE_CONFIG_ERROR
      ↔ (∀ tok ∈ mobileModes, tok.target ≠ target) ∧ comp = none)
    ∧ (((∃ tok ∈ mobileModes, tok.target = target) ∨ comp ≠ none) →
        ∃ cfg, MobileModeBase._getMobileModeConfig mobileModes target comp
          = .ok cfg) := by
  unfold MobileModeBase._getMobileModeConfig
  cases hfind : mobileModes.find? (fun mode => mode.target == target) with
  | some tok =>
    constructor
    · constructor
      · intro h
        simp at h
      · rintro ⟨hall, -⟩
        exfalso
        have hmem := List.mem_of_find?_eq_some hfind
        have hp := List.find?_some hfind
        exact hall tok hmem (by simpa using hp)
    · intro _
      exact ⟨_, rfl⟩
  | none =>
    rw [List.find?_eq_none] at hfind
    cases comp with
    | some c =>
      constructor
      · constructor
        · intro h
          simp at h
        · rintro ⟨-, h⟩
          simp at h
      · intro _
        exact ⟨c, rfl⟩
    | none =>
      constructor
      · constructor
        · intro _
          exact ⟨fun tok hmem heq => by simpa [heq] using hfind tok hmem, rfl⟩
        · intro _
          rfl
      · rintro (⟨tok, hmem, heq⟩ | h)
        · exact absurd (show (tok.target == target) = true by simp [heq])
            (hfind tok hmem)
        · exact absurd rfl h

theorem C1_error_iff_no_config_witness :
    MobileModeBase._getMobileModeConfig [] MobileModeControl.MENU none
      = .error MOBILE_CONFIG_ERROR :=
  (C1_error_iff_no_config [] MobileModeControl.MENU none).1.mpr
    ⟨fun tok h => absurd h (List.not_mem_nil tok), rfl⟩

/-- C2: when both an injected configuration and a component-provided
configuration are present, the resolved configuration takes the
component-level value for every key defined in the component
configuration (in particular for every key defined in both), and keeps
the injected value for every key defined only in the injected
configuration. -/
theorem C2_merge_prefers_component (mobileModes : List MobileModeConfigToken)
    (target : MobileModeControl) (tok : MobileModeConfigToken)
    (c1 c2 : MobileModeConfig)
    (hfind : mobileModes.find? (fun mode => mode.target == target) = some tok)
    (hc : tok.config = some c1) :
    ∃ cfg, MobileModeBase._getMobileModeConfig mobileModes target (some c2)
        = .ok cfg
      ∧ (∀ k v2, jsLookup c2.fields k = some v2 →
          jsLookup cfg.fields k = some v2)
      ∧ (∀ k v1, jsLookup c1.fields k = some v1 →
          jsLookup c2.fields k = none → jsLookup cfg.fields k = some v1) := by
  refine ⟨MobileModeBase._mergeConfigs c1 c2, ?_, ?_, ?_⟩
  · unfold MobileModeBase._getMobileModeConfig
    rw [hfind]
    simp [hc]
  · intro k v2 h2
    unfold MobileModeBase._mergeConfigs
    simp only
    rw [jsLookup_spread, h2]
    rfl
  · intro k v1 h1 h2
    unfold MobileModeBase._mergeConfigs
    simp only
    rw [jsLookup_spread, h2, h1]
    rfl

theorem C2_merge_prefers_component_witness :
    ∃ cfg, MobileModeBase._getMobileModeConfig
        [⟨MobileModeControl.MENU, some c1ex⟩] MobileModeControl.MENU (some c2ex)
        = .ok cfg
      ∧ (∀ k v2, jsLookup c2ex.fields k = some v2 →
          jsLookup cfg.fields k = some v2)
      ∧ (∀ k v1, jsLookup c1ex.fields k = some v1 →
          jsLookup c2ex.fields k = none → jsLookup cfg.fields k = some v1) :=
  C2_merge_prefers_component [⟨MobileModeControl.MENU, some c1ex⟩]
    MobileModeControl.MENU ⟨MobileModeControl.MENU, some c1ex⟩ c1ex c2ex rfl rfl

/-- C3: the merge is shallow on the ordinary keys (each kept value is one
of the two input values, taken wholesale, with the component side
winning) while the `dialogConfig` sub-object is merged one level deep:
its keys are the union of the two inputs' `dialogConfig` keys, the
component side wins on overlaps, and a nested object value inside
`dialogConfig` is replaced wholesale by the component side's object, not
merged recursively. -/
theorem C3_dialog_config_one_level_merge (c1 c2 : MobileModeConfig) :
    (∀ k, jsLookup (MobileModeBase._mergeConfigs c1 c2).fields k
        = (jsLookup c2.fields k).orElse (fun _ => jsLookup c1.fields k))
    ∧ ∃ d, (MobileModeBase._mergeConfigs c1 c2).dialogConfig = some d
      ∧ (∀ k, jsLookup d k
          = (jsLookup (c2.dialogConfig.getD []) k).orElse
              (fun _ => jsLookup (c1.dialogConfig.getD []) k))
      ∧ (∀ k o1 o2,
          jsLookup (c1.dialogConfig.getD []) k = some (JsValue.obj o1) →
          jsLookup (c2.dialogConfig.getD []) k = some (JsValue.obj o2) →
          jsLookup d k = some (JsValue.obj o2)) := by
  refine ⟨fun k => jsLookup_spread _ _ k,
    spread (c1.dialogConfig.getD []) (c2.dialogConfig.getD []), rfl,
    fun k => jsLookup_spread _ _ k, ?_⟩
  intro k o1 o2 h1 h2
  rw [jsLookup_spread, h2]
  rfl

theorem C3_dialog_config_one_level_merge_witness :
    ∃ d, (MobileModeBase._mergeConfigs
        ⟨[], some [("k", JsValue.obj [("x", JsValue.prim "1")])]⟩
        ⟨[], some [("k", JsValue.obj [("y", JsValue.prim "2")])]⟩).dialogConfig
        = some d
      ∧ jsLookup d "k" = some (JsValue.obj [("y", JsValue.prim "2")]) := by
  obtain ⟨-, d, hd, -, hobj⟩ := C3_dialog_config_one_level_merge
    ⟨[], some [("k", JsValue.obj [("x", JsValue.prim "1")])]⟩
    ⟨[], some [("k", JsValue.obj [("y", JsValue.prim "2")])]⟩
  exact ⟨d, hd, hobj "k" [("x", JsValue.prim "1")] [("y", JsValue.prim "2")] rfl rfl⟩

/-- C7: when no injected entry matches the target, the component-provided
default is returned unmodified; when some entry matches, resolution uses
the first matching entry of the list. -/
theorem C7_fallback_and_first_match (mobileModes : List MobileModeConfigToken)
    (target : MobileModeControl) :
    ((∀ tok ∈ mobileModes, tok.target ≠ target) →
      ∀ comp : MobileModeConfig,
        MobileModeBase._getMobileModeConfig mobileModes target (some comp)
          = .ok comp)
    ∧ (∀ l1 tok l2, mobileModes = l1 ++ tok :: l2 →
        (∀ t ∈ l1, t.target ≠ target) → tok.target = target →
        ∀ comp : Option MobileModeConfig,
          MobileModeBase._getMobileModeConfig mobileModes target comp
            = .ok (MobileModeBase._mergeConfigs (tok.config.getD emptyConfig)
                (comp.getD emptyConfig))) := by
  constructor
  · intro hall comp
    unfold MobileModeBase._getMobileModeConfig
    have hfind : mobileModes.find? (fun mode => mode.target == target) = none := by
      rw [List.find?_eq_none]
      intro x hx
      simp [hall x hx]
    rw [hfind]
  · intro l1 tok l2 hsplit hl1 htok comp
    have hfind : mobileModes.find? (fun mode => mode.target == target)
        = some tok := by
      rw [hsplit, List.find?_append]
      have h1 : l1.find? (fun mode => mode.target == target) = none := by
        rw [List.find?_eq_none]
        intro x hx
        simp [hl1 x hx]
      rw [h1, List.find?_cons_of_pos _ (by simp [htok])]
      rfl
    unfold MobileModeBase._getMobileModeConfig
    rw [hfind]

theorem C7_fallback_and_first_match_witness :
    MobileModeBase._getMobileModeConfig
        [⟨MobileModeControl.SELECT, some c1ex⟩] MobileModeControl.MENU
        (some c2ex) = .ok c2ex
    ∧ MobileModeBase._getMobileModeConfig
        [⟨MobileModeControl.SELECT, some c1ex⟩,
         ⟨MobileModeControl.MENU, some c1ex⟩,
         ⟨MobileModeControl.MENU, some c2ex⟩] MobileModeControl.MENU none
      = .ok (MobileModeBase._mergeConfigs c1ex emptyConfig) :=
  ⟨(C7_fallback_and_first_match [⟨MobileModeControl.SELECT, some c1ex⟩]
      MobileModeControl.MENU).1 (by decide) c2ex,
   (C7_fallback_and_first_match
      [⟨MobileModeControl.SELECT, some c1ex⟩,
       ⟨MobileModeControl.MENU, some c1ex⟩,
       ⟨MobileModeControl.MENU, some c2ex⟩] MobileModeControl.MENU).2
      [⟨MobileModeControl.SELECT, some c1ex⟩] ⟨MobileModeControl.MENU, some c1ex⟩
      [⟨MobileModeControl.MENU, some c2ex⟩] rfl (by decide) rfl none⟩

/-- C10: whenever an injected entry for the target exists, the resolved
configuration has a defined (possibly empty) `dialogConfig`, even when
neither input defines one; in the fallback branch with only a component
default and no `dialogConfig`, the resolved `dialogConfig` is undefined. -/
theorem C10_dialog_config_defined (mobileModes : List MobileModeConfigToken)
    (target : MobileModeControl) (comp : Option MobileModeConfig)
    (tok : MobileModeConfigToken)
    (hfind : mobileModes.find? (fun mode => mode.target == target) = some tok) :
    (∃ cfg d, MobileModeBase._getMobileModeConfig mobileModes target comp
        = .ok cfg ∧ cfg.dialogConfig = some d)
    ∧ (∃ c0 : MobileModeConfig, c0.dialogConfig = none
        ∧ MobileModeBase._getMobileModeConfig [] target (some c0) = .ok c0) := by
  constructor
  · have hres : MobileModeBase._getMobileModeConfig mobileModes target comp
        = .ok (MobileModeBase._mergeConfigs (tok.config.getD emptyConfig)
            (comp.getD emptyConfig)) := by
      unfold MobileModeBase._getMobileModeConfig
      rw [hfind]
    exact ⟨_, _, hres, rfl⟩
  · exact ⟨emptyConfig, rfl, rfl⟩

theorem C10_dialog_config_defined_witness :
    (∃ cfg d, MobileModeBase._getMobileModeConfig
        [⟨MobileModeControl.MENU, some ⟨[], none⟩⟩] MobileModeControl.MENU
        (some ⟨[], none⟩) = .ok cfg ∧ cfg.dialogConfig = some d)
    ∧ (∃ c0 : MobileModeConfig, c0.dialogConfig = none
        ∧ MobileModeBase._getMobileModeConfig [] MobileModeControl.MENU
            (some c0) = .ok c0) :=
  C10_dialog_config_defined [⟨MobileModeControl.MENU, some ⟨[], none⟩⟩]
    MobileModeControl.MENU (some ⟨[], none⟩)
    ⟨MobileModeControl.MENU, some ⟨[], none⟩⟩ rfl

/-! ## TextAreaComponent (`text-area.component.ts`)

The component's instance state relevant to the counter logic is gathered
in `TextAreaState`.  Strings model the control value, with the empty
string standing for the falsy value (`undefined` / `''`); `maxLength` is
an `Option Nat` with `none` for `undefined` (the JavaScript comparison
`n > undefined` is `false`, modelled by `jsGtMax`).  The DOM-only effects
(focus, selection range, element styles) have no observable state in the
claims and are dropped; element heights are modelled in pixel numbers. -/

/-- Key code of the Delete key (`@angular/cdk/keycodes`). -/
def DELETE : Nat := 46

/-- Key code of the Backspace key (`@angular/cdk/keycodes`). -/
def BACKSPACE : Nat := 8

/-- `VALID_WRAP_TYPES` of `text-area.component.ts`. -/
def VALID_WRAP_TYPES : List String := ["hard", "soft", "off"]

/-- The JavaScript comparison `n > m` where `m` may be `undefined`
(`none`): comparison with `undefined` is `false`. -/
def jsGtMax (n : Nat) : Option Nat → Bool
  | none => false
  | some m => n > m

structure TextAreaState where
  /-- The stored control value; `""` models the falsy value. -/
  value : String
  /-- The `wrapType` input; `none` models `undefined`. -/
  wrapType : Option String
  /-- The `maxLength` input; `none` models `undefined`. -/
  maxLength : Option Nat
  /-- The `showExceededText` input. -/
  showExceededText : Bool
  /-- The `growing` input. -/
  growing : Bool
  /-- The excess / remaining character count. -/
  exceededCharCount : Nat
  /-- `'remaining'` or `'excess'`, for the counter message. -/
  counterExcessOrRemaining : String
  /-- Whether an initial value was custom set. -/
  isValueCustomSet : Bool
  /-- Tracked number of characters in the textarea. -/
  textAreaCharCount : Nat
  /-- Whether the last interaction was a paste. -/
  isPasted : Bool

namespace TextAreaComponent

/-- The `remainingText` constant. -/
def remainingText : String := "remaining"

/-- The `excessText` constant. -/
def excessText : String := "excess"

/-- Modelled from the spec: `BaseInput.writeValue` (`base.input.ts` is
not among the sources); by the control-value-accessor contract described
in the glossary, it stores the bound value. -/
def superWriteValue (v : String) (s : TextAreaState) : TextAreaState :=
  { s with value := v }

/-- Modelled from the spec: `BaseInput.setValue` (`base.input.ts` is not
among the sources); by the control-value-accessor contract it stores the
bound value. -/
def superSetValue (v : String) (s : TextAreaState) : TextAreaState :=
  { s with value := v }

/-- The `value` setter: a truthy value is stored through
`super.setValue`; a falsy one resets `exceededCharCount` to
`this.maxLength ? this.maxLength : 0` and writes `''`. -/
def setValueProp (v : String) (s : TextAreaState) : TextAreaState :=
  if v ≠ "" then
    superSetValue v s
  else
    superWriteValue "" { s with exceededCharCount := s.maxLength.getD 0 }

/-- `TextAreaComponent.validateLengthOnCustomSet`: compares the tracked
character count with `maxLength`, sets the excess / remaining indicator
and count, and resets the paste flag.  (The focus / selection-range calls
under `_isPasted` are DOM-only.)  Its only caller guards on a truthy
`maxLength`, so `maxLength` is read with `getD 0`. -/
def validateLengthOnCustomSet (s : TextAreaState) : TextAreaState :=
  let m := s.maxLength.getD 0
  let s :=
    if s.textAreaCharCount > m then
      { s with counterExcessOrRemaining := excessText
               exceededCharCount := s.textAreaCharCount - m }
    else
      { s with counterExcessOrRemaining := remainingText
               exceededCharCount := m - s.textAreaCharCount }
  { s with isPasted := false }

/-- `TextAreaComponent.updateCounterInteractions`: on a truthy value,
track its length and, when `maxLength` is truthy, validate it. -/
def updateCounterInteractions (s : TextAreaState) : TextAreaState :=
  if s.value ≠ "" then
    let s := { s with textAreaCharCount := s.value.length }
    if s.maxLength.getD 0 ≠ 0 then validateLengthOnCustomSet s else s
  else s

/-- `TextAreaComponent.writeValue`: a truthy value is stored, the counter
updated, and a state-change notification emitted (the returned `Bool`);
a falsy value does nothing. -/
def writeValue (v : Option String) (s : TextAreaState) : TextAreaState × Bool :=
  match v with
  | some str =>
      if str ≠ "" then
        (updateCounterInteractions (superWriteValue str s), true)
      else (s, false)
  | none => (s, false)

/-- `TextAreaComponent.ngOnInit`: throws when `wrapType` is falsy or not
among `VALID_WRAP_TYPES`; otherwise initialises the counter (`super.ngOnInit`
performs no further observable step for these claims). -/
def ngOnInit (s : TextAreaState) : Except String TextAreaState :=
  if s.wrapType.getD "" = "" ∨ ¬ (s.wrapType.getD "") ∈ VALID_WRAP_TYPES then
    .error "Textarea wrap type is not supported"
  else
    .ok (if s.value = "" then { s with exceededCharCount := s.maxLength.getD 0 }
         else { s with isValueCustomSet := true })

/-- `TextAreaComponent.handleBackPress` (`keyup` listener): in growing
mode, auto-grow (DOM-only) and clear `isValueCustomSet`; then, when not
showing exceeded text and the released key is Delete or Backspace, a
truthy value longer than `maxLength` is truncated through the `value`
setter to its first `maxLength` characters and `isValueCustomSet` is
cleared. -/
def handleBackPress (keyCode : Nat) (s : TextAreaState) : TextAreaState :=
  let s := if s.growing then { s with isValueCustomSet := false } else s
  if ¬ s.showExceededText ∧ (keyCode = DELETE ∨ keyCode = BACKSPACE) then
    if s.value ≠ "" then
      let s := { s with textAreaCharCount := s.value.length }
      if jsGtMax s.textAreaCharCount s.maxLength then
        { setValueProp (s.value.take (s.maxLength.getD 0)) s with
            isValueCustomSet := false }
      else s
    else s
  else s

/-- `TextAreaComponent._getTextareaTotalHeight`: border-top width plus
scroll height plus border-bottom width, in pixels. -/
def _getTextareaTotalHeight (borderTopWidth scrollHeight borderBottomWidth : Nat) :
    Nat :=
  borderTopWidth + scrollHeight + borderBottomWidth

/-- `TextAreaComponent.autoGrowTextArea`, on the pixel numbers involved:
`styleMaxHeight` is `parseInt(style.maxHeight)` with `0` for the falsy
parse of an unset max height, `height` is the `height` input (`none` =
unset) and the result is the applied element height.  When not growing,
the current height is untouched. -/
def autoGrowTextArea (growing : Bool) (height : Option Nat) (styleMaxHeight : Nat)
    (borderTopWidth scrollHeight borderBottomWidth currentHeight : Nat) : Nat :=
  if growing then
    let textareaTotalHeight :=
      _getTextareaTotalHeight borderTopWidth scrollHeight borderBottomWidth
    if styleMaxHeight ≠ 0 then
      if textareaTotalHeight ≤ styleMaxHeight then textareaTotalHeight
      else match height with
        | some h => h
        | none => styleMaxHeight
    else textareaTotalHeight
  else currentHeight

/-- `TextAreaComponent._setMaxHeight`, on pixel numbers: returns the pair
(style max height, style height) after the call.  In growing mode the max
height becomes `growingMaxLines * lineHeight` when `growingMaxLines` is
truthy and then the `height` input when present; otherwise only the
height is set from the `height` input. -/
def _setMaxHeight (growing : Bool) (growingMaxLines lineHeight : Nat)
    (height : Option Nat) (curMaxHeight curHeight : Nat) : Nat × Nat :=
  if growing then
    let m := if growingMaxLines ≠ 0 then growingMaxLines * lineHeight
             else curMaxHeight
    ((match height with | some h => h | none => m), curHeight)
  else
    (curMaxHeight, match height with | some h => h | none => curHeight)

end TextAreaComponent

/-! ## Theorems about TextAreaComponent -/

/-- A concrete textarea state used by witnesses. -/
def sEx : TextAreaState :=
  { value := ""
    wrapType := some "soft"
    maxLength := none
    showExceededText := false
    growing := false
    exceededCharCount := 0
    counterExcessOrRemaining := TextAreaComponent.remainingText
    isValueCustomSet := false
    textAreaCharCount := 0
    isPasted := false }

/-- C4: initialization throws exactly on a wrap type outside
`VALID_WRAP_TYPES` — an absent (`none`) or empty wrap type reads as `""`,
which is not in the list, and also throws; each of the three supported
values does not throw. -/
theorem C4_wrap_type_check (s : TextAreaState) :
    ((s.wrapType.getD "") ∉ VALID_WRAP_TYPES →
      TextAreaComponent.ngOnInit s
        = .error "Textarea wrap type is not supported")
    ∧ (∀ w ∈ VALID_WRAP_TYPES, s.wrapType = some w →
        ∃ s', TextAreaComponent.ngOnInit s = .ok s') := by
  constructor
  · intro hnot
    unfold TextAreaComponent.ngOnInit
    rw [if_pos (Or.inr hnot)]
  · intro w hw hsome
    unfold TextAreaComponent.ngOnInit
    rw [if_neg]
    · exact ⟨_, rfl⟩
    · rw [hsome]
      simp only [Option.getD_some]
      rintro (h | h)
      · rw [h] at hw
        simp [VALID_WRAP_TYPES] at hw
      · exact h hw

theorem C4_wrap_type_check_witness :
    (TextAreaComponent.ngOnInit { sEx with wrapType := some "bogus" }
        = .error "Textarea wrap type is not supported"
      ∧ TextAreaComponent.ngOnInit { sEx with wrapType := none }
        = .error "Textarea wrap type is not supported")
    ∧ (∃ s', TextAreaComponent.ngOnInit { sEx with wrapType := some "hard" }
        = .ok s')
    ∧ (∃ s', TextAreaComponent.ngOnInit { sEx with wrapType := some "soft" }
        = .ok s')
    ∧ (∃ s', TextAreaComponent.ngOnInit { sEx with wrapType := some "off" }
        = .ok s') :=
  ⟨⟨(C4_wrap_type_check { sEx with wrapType := some "bogus" }).1 (by decide),
    (C4_wrap_type_check { sEx with wrapType := none }).1 (by decide)⟩,
   (C4_wrap_type_check { sEx with wrapType := some "hard" }).2 "hard"
      (by decide) rfl,
   (C4_wrap_type_check { sEx with wrapType := some "soft" }).2 "soft"
      (by decide) rfl,
   (C4_wrap_type_check { sEx with wrapType := some "off" }).2 "off"
      (by decide) rfl⟩

/-- C5: for a non-empty value and a positive configured `maxLength`,
`updateCounterInteractions` sets the indicator to `'excess'` with
`exceededCharCount = length - maxLength` when the length exceeds
`maxLength`, and to `'remaining'` with
`exceededCharCount = maxLength - length` otherwise. -/
theorem C5_counter_interactions (s : TextAreaState) (m : Nat)
    (hm : s.maxLength = some m) (hmpos : 0 < m) (hv : s.value ≠ "") :
    (s.value.length > m →
      (TextAreaComponent.updateCounterInteractions s).counterExcessOrRemaining
          = TextAreaComponent.excessText
        ∧ (TextAreaComponent.updateCounterInteractions s).exceededCharCount
          = s.value.length - m)
    ∧ (s.value.length ≤ m →
      (TextAreaComponent.updateCounterInteractions s).counterExcessOrRemaining
          = TextAreaComponent.remainingText
        ∧ (TextAreaComponent.updateCounterInteractions s).exceededCharCount
          = m - s.value.length) := by
  have hres : TextAreaComponent.updateCounterInteractions s
      = TextAreaComponent.validateLengthOnCustomSet
          { s with textAreaCharCount := s.value.length } := by
    unfold TextAreaComponent.updateCounterInteractions
    rw [if_pos hv, hm]
    simp only [Option.getD_some]
    rw [if_pos hmpos.ne']
  constructor
  · intro hgt
    rw [hres]
    unfold TextAreaComponent.validateLengthOnCustomSet
    simp only [hm, Option.getD_some]
    rw [if_pos (by simpa using hgt)]
    exact ⟨rfl, rfl⟩
  · intro hle
    rw [hres]
    unfold TextAreaComponent.validateLengthOnCustomSet
    simp only [hm, Option.getD_some]
    rw [if_neg (by simpa using Nat.not_lt.mpr hle)]
    exact ⟨rfl, rfl⟩

theorem C5_counter_interactions_witness :
    ((("abcde" : String).length > 3 →
      (TextAreaComponent.updateCounterInteractions
          { sEx with value := "abcde", maxLength := some 3 }).counterExcessOrRemaining
          = TextAreaComponent.excessText
        ∧ (TextAreaComponent.updateCounterInteractions
            { sEx with value := "abcde", maxLength := some 3 }).exceededCharCount
          = ("abcde" : String).length - 3)
      ∧ (("abcde" : String).length ≤ 3 →
        (TextAreaComponent.updateCounterInteractions
            { sEx with value := "abcde", maxLength := some 3 }).counterExcessOrRemaining
            = TextAreaComponent.remainingText
          ∧ (TextAreaComponent.updateCounterInteractions
              { sEx with value := "abcde", maxLength := some 3 }).exceededCharCount
            = 3 - ("abcde" : String).length))
    ∧ ((("ab" : String).length > 3 →
      (TextAreaComponent.updateCounterInteractions
          { sEx with value := "ab", maxLength := some 3 }).counterExcessOrRemaining
          = TextAreaComponent.excessText
        ∧ (TextAreaComponent.updateCounterInteractions
            { sEx with value := "ab", maxLength := some 3 }).exceededCharCount
          = ("ab" : String).length - 3)
      ∧ (("ab" : String).length ≤ 3 →
        (TextAreaComponent.updateCounterInteractions
            { sEx with value := "ab", maxLength := some 3 }).counterExcessOrRemaining
            = TextAreaComponent.remainingText
          ∧ (TextAreaComponent.updateCounterInteractions
              { sEx with value := "ab", maxLength := some 3 }).exceededCharCount
            = 3 - ("ab" : String).length)) :=
  ⟨C5_counter_interactions { sEx with value := "abcde", maxLength := some 3 } 3
      rfl (by decide) (by decide),
   C5_counter_interactions { sEx with value := "ab", maxLength := some 3 } 3
      rfl (by decide) (by decide)⟩

/-- C6: for a growing textarea whose style max height was set by
`_setMaxHeight`, `autoGrowTextArea` applies the computed total height
(border-top width + scroll height + border-bottom width) when no max
height is configured or the total does not exceed it, and the applied
height never exceeds the configured max height when the total exceeds
it. -/
theorem C6_auto_grow_capped (growingMaxLines lineHeight : Nat)
    (height : Option Nat)
    (curMaxHeight curHeight bt sh bb mh : Nat)
    (hmh : mh = (TextAreaComponent._setMaxHeight true growingMaxLines
        lineHeight height curMaxHeight curHeight).1) :
    ((mh = 0 ∨ TextAreaComponent._getTextareaTotalHeight bt sh bb ≤ mh) →
      TextAreaComponent.autoGrowTextArea true height mh bt sh bb curHeight
        = TextAreaComponent._getTextareaTotalHeight bt sh bb)
    ∧ (mh ≠ 0 → mh < TextAreaComponent._getTextareaTotalHeight bt sh bb →
      TextAreaComponent.autoGrowTextArea true height mh bt sh bb curHeight
        ≤ mh) := by
  constructor
  · intro hc
    by_cases hz : mh = 0
    · simp [TextAreaComponent.autoGrowTextArea, hz]
    · rcases hc with hc | hc
      · exact absurd hc hz
      · simp [TextAreaComponent.autoGrowTextArea, hz, hc]
  · intro hne hlt
    cases height with
    | some h =>
      have hh : mh = h := by
        simpa [TextAreaComponent._setMaxHeight] using hmh
      subst hh
      simp [TextAreaComponent.autoGrowTextArea, hne, Nat.not_le.mpr hlt]
    | none =>
      simp [TextAreaComponent.autoGrowTextArea, hne, Nat.not_le.mpr hlt]

theorem C6_auto_grow_capped_witness :
    (((30 : Nat) = 0 ∨ TextAreaComponent._getTextareaTotalHeight 1 20 1 ≤ 30) →
      TextAreaComponent.autoGrowTextArea true (some 30) 30 1 20 1 10
        = TextAreaComponent._getTextareaTotalHeight 1 20 1)
    ∧ ((30 : Nat) ≠ 0 → 30 < TextAreaComponent._getTextareaTotalHeight 1 20 1 →
      TextAreaComponent.autoGrowTextArea true (some 30) 30 1 20 1 10 ≤ 30) :=
  C6_auto_grow_capped 0 20 (some 30) 0 10 1 20 1 30 (by decide)

/-- C8: calling `writeValue` with a falsy value (`undefined` or the empty
string) is a no-op: the stored control value, the tracked character
count, `exceededCharCount` and the excess / remaining indicator are
unchanged, and no state-change notification is emitted. -/
theorem C8_write_value_falsy_noop (v : Option String) (s : TextAreaState)
    (hv : v = none ∨ v = some "") :
    (TextAreaComponent.writeValue v s).1.value = s.value
    ∧ (TextAreaComponent.writeValue v s).1.textAreaCharCount
        = s.textAreaCharCount
    ∧ (TextAreaComponent.writeValue v s).1.exceededCharCount
        = s.exceededCharCount
    ∧ (TextAreaComponent.writeValue v s).1.counterExcessOrRemaining
        = s.counterExcessOrRemaining
    ∧ (TextAreaComponent.writeValue v s).2 = false := by
  rcases hv with hv | hv <;> subst hv <;>
    simp [TextAreaComponent.writeValue]

theorem C8_write_value_falsy_noop_witness :
    (TextAreaComponent.writeValue (some "") sEx).1.value = sEx.value
    ∧ (TextAreaComponent.writeValue (some "") sEx).1.textAreaCharCount
        = sEx.textAreaCharCount
    ∧ (TextAreaComponent.writeValue (some "") sEx).1.exceededCharCount
        = sEx.exceededCharCount
    ∧ (TextAreaComponent.writeValue (some "") sEx).1.counterExcessOrRemaining
        = sEx.counterExcessOrRemaining
    ∧ (TextAreaComponent.writeValue (some "") sEx).2 = false :=
  C8_write_value_falsy_noop (some "") sEx (Or.inr rfl)

theorem string_take_ne_empty (v : String) (m : Nat) (hm : 0 < m)
    (hv : v ≠ "") : v.take m ≠ "" := by
  intro h
  rw [String.take_eq, String.ext_iff] at h
  rcases List.take_eq_nil_iff.mp h with h0 | h0
  · omega
  · exact hv (String.ext h0)

theorem string_take_length_le (v : String) (m : Nat) :
    (v.take m).length ≤ m := by
  rw [String.take_eq]
  show (v.data.take m).length ≤ m
  rw [List.length_take]
  exact Nat.min_le_left _ _

/-- C9: with `showExceededText` false, a positive `maxLength` and a
non-empty value longer than `maxLength`, releasing Delete or Backspace
truncates the value to its first `maxLength` characters (its length then
no longer exceeds `maxLength`) and clears `isValueCustomSet`; other key
releases, or `showExceededText` true, leave the value untouched. -/
theorem C9_backpress_truncation (s : TextAreaState) (k m : Nat) :
    (s.showExceededText = false → s.maxLength = some m → 0 < m →
      s.value ≠ "" → m < s.value.length → (k = DELETE ∨ k = BACKSPACE) →
      (TextAreaComponent.handleBackPress k s).value = s.value.take m
        ∧ (TextAreaComponent.handleBackPress k s).value.length ≤ m
        ∧ (TextAreaComponent.handleBackPress k s).isValueCustomSet = false)
    ∧ (k ≠ DELETE → k ≠ BACKSPACE →
        (TextAreaComponent.handleBackPress k s).value = s.value)
    ∧ (s.showExceededText = true →
        (TextAreaComponent.handleBackPress k s).value = s.value) := by
  refine ⟨?_, ?_, ?_⟩
  · intro hse hm hmpos hv hlen hk
    have htk := string_take_ne_empty s.value m hmpos hv
    have hres : TextAreaComponent.handleBackPress k s
        = { s with value := s.value.take m
                   textAreaCharCount := s.value.length
                   isValueCustomSet := false } := by
      unfold TextAreaComponent.handleBackPress
      by_cases hg : s.growing <;>
        simp [hg, hse, hk, hv, hm, jsGtMax, hlen,
          TextAreaComponent.setValueProp, TextAreaComponent.superSetValue, htk]
    rw [hres]
    exact ⟨rfl, string_take_length_le s.value m, rfl⟩
  · intro hk1 hk2
    unfold TextAreaComponent.handleBackPress
    by_cases hg : s.growing <;> simp [hg, hk1, hk2]
  · intro hse
    unfold TextAreaComponent.handleBackPress
    by_cases hg : s.growing <;> simp [hg, hse]

theorem C9_backpress_truncation_witness :
    (TextAreaComponent.handleBackPress DELETE
        { sEx with value := "abcd", maxLength := some 2 }).value
      = ({ sEx with value := "abcd", maxLength := some 2 } : TextAreaState).value.take 2
    ∧ (TextAreaComponent.handleBackPress DELETE
        { sEx with value := "abcd", maxLength := some 2 }).value.length ≤ 2
    ∧ (TextAreaComponent.handleBackPress DELETE
        { sEx with value := "abcd", maxLength := some 2 }).isValueCustomSet
      = false :=
  (C9_backpress_truncation { sEx with value := "abcd", maxLength := some 2 }
      DELETE 2).1 rfl rfl (by decide) (by decide) (by decide) (Or.inl rfl)
